import Mathlib

/-!
Verification of the Spotify2.bundle client bridge (Contents/Code/client.py).

The file shallowly embeds the `SpotifyClient` class: its mutable fields become
a `ClientState` record, the host scheduler's one-shot timers become an
environment of live timer tokens (`SysState`), and each method or libspotify
callback becomes a pure state-transition function.  Opaque collaborator calls
(converter, frame sink, session engine) are recorded in an `Effect` trace so
that call ordering and callback-invocation counts are observable.
-/

namespace Spotify2

/-- Observable calls the bridge makes to its collaborators.  `stopCbInvoked cb`
records an invocation of the registered stop-notify callback `cb`;
`contextInstalled c a s` records the installation of a fresh playback context
(converter `c`, audio callback `a`, stop callback `s`) by `play_track`. -/
inductive Effect where
  | convertCalled : Effect
  | sinkCalled : Effect
  | stopCbInvoked : Nat → Effect
  | sessionLoad : Effect
  | sessionPlay : Effect
  | contextInstalled : Nat → Nat → Nat → Effect
  deriving DecidableEq

/-- The mutable fields set in `SpotifyClient.__init__` (client.py lines 31-37).
Callbacks, converters, sessions and timer tokens are identified by `Nat` ids;
`none` embeds Python `None`. -/
structure ClientState where
  timer : Option Nat
  session : Option Nat
  logging_in : Bool
  stop_callback : Option Nat
  audio_callback : Option Nat
  audio_converter : Option Nat
  deriving DecidableEq

/-- Embeds `SpotifyClient.is_logging_in` (client.py lines 41-42). -/
def is_logging_in (c : ClientState) : Bool :=
  c.logging_in

/-- Embeds `SpotifyClient.is_logged_in` (client.py lines 44-45):
`self.session is not None`. -/
def is_logged_in (c : ClientState) : Bool :=
  c.session.isSome

/-- Embeds `SpotifyClient.cleanup` (client.py lines 226-231): if a stop
callback is registered, invoke it and clear the registration; then discard the
converter unconditionally. -/
def cleanup (s : ClientState) : ClientState × List Effect :=
  match s.stop_callback with
  | some cb =>
      ({ s with stop_callback := none, audio_converter := none },
       [Effect.stopCbInvoked cb])
  | none => ({ s with audio_converter := none }, [])

/-- Embeds `SpotifyClient.stop_playback` (client.py lines 141-147): early
return when no converter is installed, otherwise run `cleanup`.  The commented
out `session.unload()` in the source is absent by design. -/
def stop_playback (s : ClientState) : ClientState × List Effect :=
  if s.audio_converter = none then (s, [])
  else cleanup s

/-- Embeds `SpotifyClient.play_track` (client.py lines 171-187).  `loadOk`
models whether `load_track`'s polling wait succeeds; on failure the method
raises before touching any state (`none` result).  On success the source runs
`stop_playback`, then `session.load`, `session.play`, and installs the new
converter and callbacks. -/
def play_track (s : ClientState) (track acb scb : Nat) (loadOk : Bool) :
    Option (ClientState × List Effect) :=
  if loadOk then
    let p := stop_playback s
    some ({ p.1 with audio_converter := some track,
                     audio_callback := some acb,
                     stop_callback := some scb },
          p.2 ++ [Effect.sessionLoad, Effect.sessionPlay,
                  Effect.contextInstalled track acb scb])
  else none

/-- Behaviour of the collaborators during one `music_delivery` call.
Modelled from the spec: `PCMToAIFFConverter.convert`/`get_pending_data`
(utils.py, not under src/) either raise or report a consumed frame count, and
the frame-sink callback either raises or returns a boolean.  `raises` covers
an exception at any step inside the source's `try` block (conversion,
extracting pending data, or the sink call); `sinkReturns n accept` covers the
non-raising run where the converter reported `n` consumed frames and the sink
returned `accept`. -/
inductive DeliveryOutcome where
  | raises : DeliveryOutcome
  | sinkReturns : Nat → Bool → DeliveryOutcome
  deriving DecidableEq

/-- Embeds `SpotifyClient.music_delivery` (client.py lines 274-289): return 0
when no converter is installed; otherwise convert and forward data to the
sink, stopping playback and returning 0 when the sink refuses more data; any
exception is caught, playback is stopped, and 0 is returned (the embedding is
a total function: no exception propagates to the caller). -/
def music_delivery (s : ClientState) (o : DeliveryOutcome) :
    ClientState × Nat × List Effect :=
  if s.audio_converter = none then (s, 0, [])
  else
    match o with
    | DeliveryOutcome.raises =>
        let p := stop_playback s
        (p.1, 0, Effect.convertCalled :: p.2)
    | DeliveryOutcome.sinkReturns n accept =>
        if accept then (s, n, [Effect.convertCalled, Effect.sinkCalled])
        else
          let p := stop_playback s
          (p.1, 0, Effect.convertCalled :: Effect.sinkCalled :: p.2)

/-- Iterates `cleanup` the given number of times, concatenating the traces. -/
def cleanupN : Nat → ClientState → ClientState × List Effect
  | 0, s => (s, [])
  | n + 1, s =>
      let p := cleanup s
      let q := cleanupN n p.1
      (q.1, p.2 ++ q.2)

/-- Recognizes a stop-notify invocation in an effect trace. -/
def isStopInvocation : Effect → Bool
  | Effect.stopCbInvoked _ => true
  | _ => false

/-- Number of stop-notify callback invocations recorded in a trace. -/
def countStops (tr : List Effect) : Nat :=
  tr.countP isStopInvocation

/-- Runs a sequence of `music_delivery` calls, collecting the returned
accepted-frame counts. -/
def deliveryRun : ClientState → List DeliveryOutcome → ClientState × List Nat
  | s, [] => (s, [])
  | s, o :: os =>
      let p := music_delivery s o
      let q := deliveryRun p.1 os
      (q.1, p.2.1 :: q.2)

/-- Result of `wait_until_loaded`: the object is returned loaded, or
`assert_loaded` raises the not-loaded error. -/
inductive WaitResult where
  | loaded : WaitResult
  | notLoaded : WaitResult
  deriving DecidableEq

/-- Loop of `SpotifyClient.wait_until_loaded` (client.py lines 197-202),
modelled at poll granularity: the k-th evaluation of the `while` condition
sees elapsed time `e = k * interval` (`sleep(POLL_INTERVAL)` dominates each
iteration), checks `is_loaded e` first, and continues only while `e < timeout`
(the source condition `start > time() - timeout`).  Returns the elapsed time
at loop exit together with the number of `is_loaded` evaluations made.
The structural `fuel` argument is always called with `timeout + 1`; since each
iteration requires `e < timeout` and adds `interval ≥ 1` to `e`, the fuel-zero
fallback is only reached with `e > timeout`, where it returns exactly what the
loop's timeout exit returns. -/
def waitGo (is_loaded : Nat → Bool) (interval timeout : Nat) :
    Nat → Nat → Nat → Nat × Nat
  | 0, e, checks => (e, checks + 1)
  | fuel + 1, e, checks =>
      if is_loaded e then (e, checks + 1)
      else if e < timeout then
        waitGo is_loaded interval timeout fuel (e + interval) (checks + 1)
      else (e, checks + 1)

/-- Elapsed time at which the polling loop of `wait_until_loaded` exits. -/
def waitElapsed (is_loaded : Nat → Bool) (interval timeout : Nat) : Nat :=
  (waitGo is_loaded interval timeout (timeout + 1) 0 0).1

/-- Number of `is_loaded` evaluations the polling loop makes. -/
def waitChecks (is_loaded : Nat → Bool) (interval timeout : Nat) : Nat :=
  (waitGo is_loaded interval timeout (timeout + 1) 0 0).2

/-- Embeds `SpotifyClient.wait_until_loaded` (client.py lines 191-204): run
the polling loop, then `assert_loaded` evaluates the predicate once more and
either returns the object or raises.  Modelled from the spec where the source
is incomplete: `POLL_INTERVAL` lives in settings.py (not under src/), so the
interval is a parameter; wall-clock time is discretized in poll units.  The
second component counts all predicate evaluations performed. -/
def wait_until_loaded (is_loaded : Nat → Bool) (interval timeout : Nat) :
    WaitResult × Nat :=
  if is_loaded (waitElapsed is_loaded interval timeout) then
    (WaitResult.loaded, waitChecks is_loaded interval timeout + 1)
  else
    (WaitResult.notLoaded, waitChecks is_loaded interval timeout + 1)

/-- The bridge together with its timer environment.  `live` is the list of
armed, not-yet-fired, not-yet-cancelled timer tokens; `nextToken` generates
fresh tokens; `checksRun` counts executions of `periodic_check`. -/
structure SysState where
  client : ClientState
  live : List Nat
  nextToken : Nat
  checksRun : Nat
  deriving DecidableEq

/-- Modelled from the spec: the host scheduler's
`RunLoopMixin.schedule_timer(delay, callback)` (utils.py, not under src/)
arms a one-shot timer and returns its token (spec section 6).  Every timer in
this model fires `periodic_check`, the only callback the source ever arms. -/
def schedule_timer (sys : SysState) : SysState × Nat :=
  ({ sys with live := sys.nextToken :: sys.live,
              nextToken := sys.nextToken + 1 },
   sys.nextToken)

/-- Modelled from the spec: `RunLoopMixin.cancel_timer(token)` (utils.py, not
under src/) cancels a pending timer; cancelling an absent or already-fired
token is a no-op (spec section 4.2). -/
def cancel_timer (sys : SysState) (tok : Option Nat) : SysState :=
  match tok with
  | none => sys
  | some t => { sys with live := sys.live.filter (fun x => x != t) }

/-- Embeds `SpotifyClient.schedule_periodic_check` (client.py lines 215-218):
arm a timer for `periodic_check` and overwrite `self.timer` with its token.
Note the previous token is not cancelled. -/
def schedule_periodic_check (sys : SysState) : SysState :=
  let p := schedule_timer sys
  { p.1 with client := { p.1.client with timer := some p.2 } }

/-- Embeds `SpotifyClient.periodic_check` (client.py lines 220-224): process
pending events, then unconditionally schedule the next check. -/
def periodic_check (sys : SysState) : SysState :=
  schedule_periodic_check { sys with checksRun := sys.checksRun + 1 }

/-- Embeds `SpotifyClient.connect` (client.py lines 52-56): set the
logging-in flag and schedule the first periodic check. -/
def connect (sys : SysState) : SysState :=
  schedule_periodic_check
    { sys with client := { sys.client with logging_in := true } }

/-- Embeds the `SpotifyClient.logged_in` callback (client.py lines 235-239):
clear the logging-in flag and store the session argument.  The source ignores
the `error` argument entirely. -/
def logged_in (sys : SysState) (session error : Option Nat) : SysState :=
  { sys with client :=
      { sys.client with logging_in := false, session := session } }

/-- Embeds the `SpotifyClient.logged_out` callback (client.py lines 241-245):
clear the session handle and cancel the timer currently stored in
`self.timer`. -/
def logged_out (sys : SysState) : SysState :=
  cancel_timer { sys with client := { sys.client with session := none } }
    sys.client.timer

/-- Embeds the `SpotifyClient.wake` callback (client.py lines 252-255):
schedule a periodic check with zero delay. -/
def wake (sys : SysState) : SysState :=
  schedule_periodic_check sys

/-- A live timer fires: the token leaves the environment and its callback,
`periodic_check`, runs. -/
def fire_timer (sys : SysState) (t : Nat) : SysState :=
  periodic_check { sys with live := sys.live.filter (fun x => x != t) }

/-- Embeds the `SpotifyClient.end_of_track` callback (client.py
lines 247-250): run `cleanup`. -/
def end_of_track (sys : SysState) : SysState :=
  { sys with client := (cleanup sys.client).1 }

/-- Events the environment can deliver to the bridge: host commands,
libspotify callbacks, and timer firings. -/
inductive Ev where
  | connect : Ev
  | loggedIn : Option Nat → Option Nat → Ev
  | loggedOut : Ev
  | wake : Ev
  | fire : Nat → Ev
  | endOfTrack : Ev
  | playTrack : Nat → Nat → Nat → Bool → Ev
  | stopPlayback : Ev
  | delivery : DeliveryOutcome → Ev
  deriving DecidableEq

/-- One transition of the bridge.  `fire t` is enabled only for a live token;
`playTrack` requires a session handle (the source dereferences
`self.session`), and a failed load leaves the state unchanged (the raised
not-loaded error propagates to the host before any mutation). -/
def step (sys : SysState) : Ev → Option SysState
  | Ev.connect => some (connect sys)
  | Ev.loggedIn sess err => some (logged_in sys sess err)
  | Ev.loggedOut => some (logged_out sys)
  | Ev.wake => some (wake sys)
  | Ev.fire t => if t ∈ sys.live then some (fire_timer sys t) else none
  | Ev.endOfTrack => some (end_of_track sys)
  | Ev.playTrack track acb scb loadOk =>
      if sys.client.session = none then none
      else
        match play_track sys.client track acb scb loadOk with
        | none => some sys
        | some p => some { sys with client := p.1 }
  | Ev.stopPlayback => some { sys with client := (stop_playback sys.client).1 }
  | Ev.delivery o => some { sys with client := (music_delivery sys.client o).1 }

/-- Runs a sequence of events from a state. -/
def steps : SysState → List Ev → Option SysState
  | s, [] => some s
  | s, e :: es =>
      match step s e with
      | none => none
      | some s1 => steps s1 es

/-- The freshly constructed client (client.py lines 31-37). -/
def initClient : ClientState :=
  { timer := none, session := none, logging_in := false,
    stop_callback := none, audio_callback := none, audio_converter := none }

/-- The initial system: fresh client, no live timers. -/
def initSys : SysState :=
  { client := initClient, live := [], nextToken := 0, checksRun := 0 }

/-- States reachable from the initial system by any event sequence. -/
inductive Reachable : SysState → Prop where
  | start : Reachable initSys
  | next {s t : SysState} {e : Ev} :
      Reachable s → step s e = some t → Reachable t

theorem cleanup_fst_converter (s : ClientState) :
    (cleanup s).1.audio_converter = none := by
  rcases hs : s.stop_callback with _ | cb <;> simp [cleanup, hs]

theorem cleanup_fst_stop (s : ClientState) :
    (cleanup s).1.stop_callback = none := by
  rcases hs : s.stop_callback with _ | cb <;> simp [cleanup, hs]

theorem stop_playback_none (s : ClientState) (h : s.audio_converter = none) :
    stop_playback s = (s, []) := by
  simp [stop_playback, h]

theorem stop_playback_fst_converter (s : ClientState) :
    (stop_playback s).1.audio_converter = none := by
  by_cases h : s.audio_converter = none
  · simp [stop_playback, h]
  · simp [stop_playback, h, cleanup_fst_converter]

theorem stop_playback_fst_stop (s : ClientState)
    (h : ¬ s.audio_converter = none) :
    (stop_playback s).1.stop_callback = none := by
  simp [stop_playback, h, cleanup_fst_stop]

theorem music_delivery_none (s : ClientState) (o : DeliveryOutcome)
    (h : s.audio_converter = none) :
    music_delivery s o = (s, 0, []) := by
  simp [music_delivery, h]

theorem deliveryRun_zeros (os : List DeliveryOutcome) :
    ∀ s : ClientState, s.audio_converter = none →
      (deliveryRun s os).1.audio_converter = none ∧
      ∀ r ∈ (deliveryRun s os).2, r = 0 := by
  induction os with
  | nil => intro s h; simpa [deliveryRun] using h
  | cons o os ih =>
      intro s h
      have hd := music_delivery_none s o h
      rcases ih s h with ⟨h1, h2⟩
      simp [deliveryRun, hd]
      exact ⟨h1, h2⟩

/-- C1: the claim says that when `logged_in` fires with a non-null error the
session handle remains absent and `is_logged_in()` returns false afterwards.
The source (client.py lines 235-239) ignores the `error` argument and stores
the session unconditionally, so after a failed login delivered with a non-null
session argument the bridge reports itself logged in.  This theorem evaluates
the code at that failing input: after `connect` and then
`logged_in(session = 1, error = 1)`, the handle is stored and
`is_logged_in()` is true. -/
theorem C1_code_behavior :
    (logged_in (connect initSys) (some 1) (some 1)).client.session = some 1 ∧
    is_logged_in (logged_in (connect initSys) (some 1) (some 1)).client = true ∧
    is_logging_in (logged_in (connect initSys) (some 1) (some 1)).client
      = false := by
  decide

/-- C2: the claim says that once `logged_out` fires no further
`periodic_check` ever executes, and that the reschedule step never arms a new
timer once the session handle is cleared.  The code violates both parts:
`wake` overwrites `self.timer` without cancelling the previously armed token,
so after the trace connect, wake, logged_out the orphaned token 0 is still
live (logged_out only cancelled token 1); firing it executes `periodic_check`
after logout (`checksRun` goes from 0 to 1) and even arms a fresh timer
(token 2) with the session handle already cleared. -/
theorem C2_code_behavior :
    (steps initSys [Ev.connect, Ev.wake, Ev.loggedOut]).map
        SysState.checksRun = some 0 ∧
    (steps initSys [Ev.connect, Ev.wake, Ev.loggedOut]).map
        (fun s => s.client.session) = some none ∧
    (steps initSys [Ev.connect, Ev.wake, Ev.loggedOut]).map
        SysState.live = some [0] ∧
    (steps initSys [Ev.connect, Ev.wake, Ev.loggedOut, Ev.fire 0]).map
        SysState.checksRun = some 1 ∧
    (steps initSys [Ev.connect, Ev.wake, Ev.loggedOut, Ev.fire 0]).map
        SysState.live = some [2] := by
  decide

/-- C3: the claim says arming a new periodic check never leaves a previously
armed, not-yet-fired, not-yet-cancelled timer live alongside the new one.
`schedule_periodic_check` (client.py lines 215-218) overwrites `self.timer`
without cancelling the previous token, so after `connect` arms token 0 a
`wake` before it fires arms token 1 and leaves both live, with `self.timer`
referencing only token 1. -/
theorem C3_code_behavior :
    (steps initSys [Ev.connect]).map (fun s => s.live.length) = some 1 ∧
    (steps initSys [Ev.connect, Ev.wake]).map (fun s => s.live.length)
      = some 2 ∧
    (steps initSys [Ev.connect, Ev.wake]).map SysState.live = some [1, 0] ∧
    (steps initSys [Ev.connect, Ev.wake]).map (fun s => s.client.timer)
      = some (some 1) := by
  decide

/-- C9: `music_delivery` invoked with no active playback context (no
converter installed) returns 0 accepted frames, makes no collaborator calls
(empty effect trace), and leaves the client state unchanged
(client.py lines 277-278). -/
theorem C9_no_context_no_effects (s : ClientState) (o : DeliveryOutcome)
    (h : s.audio_converter = none) :
    music_delivery s o = (s, 0, []) :=
  music_delivery_none s o h

theorem C9_no_context_no_effects_witness :
    music_delivery ⟨none, none, false, none, none, none⟩
        DeliveryOutcome.raises
      = (⟨none, none, false, none, none, none⟩, 0, []) :=
  C9_no_context_no_effects ⟨none, none, false, none, none, none⟩
    DeliveryOutcome.raises rfl

theorem cleanup_of_stop_none (s : ClientState) (h : s.stop_callback = none) :
    cleanup s = ({ s with audio_converter := none }, []) := by
  simp [cleanup, h]

theorem cleanupN_of_stop_none (n : Nat) :
    ∀ s : ClientState, s.stop_callback = none →
      (cleanupN n s).1.stop_callback = none ∧
      (cleanupN n s).2 = [] := by
  induction n with
  | zero => intro s h; simpa [cleanupN] using h
  | succ n ih =>
      intro s h
      have hc := cleanup_of_stop_none s h
      rcases ih { s with audio_converter := none } h with ⟨h1, h2⟩
      simp [cleanupN, hc, h1, h2]

theorem cleanupN_succ_converter (n : Nat) :
    ∀ s : ClientState, (cleanupN (n + 1) s).1.audio_converter = none := by
  induction n with
  | zero => intro s; simp [cleanupN, cleanup_fst_converter]
  | succ n ih =>
      intro s
      simpa [cleanupN] using ih (cleanup s).1

/-- C5: `cleanup` is idempotent with respect to the stop-notify callback:
invoked `n ≥ 1` times consecutively with no intervening play on a state with a
registered stop callback, the whole run produces exactly one stop-notify
invocation (the trace is precisely `[stopCbInvoked cb]`), and a subsequent
`stop_playback` call is a no-op: it returns the state unchanged and invokes
nothing (client.py lines 141-147 and 226-231). -/
theorem C5_cleanup_idempotent (s : ClientState) (cb n : Nat)
    (hcb : s.stop_callback = some cb) (hn : 1 ≤ n) :
    countStops (cleanupN n s).2 = 1 ∧
    (cleanupN n s).2 = [Effect.stopCbInvoked cb] ∧
    stop_playback (cleanupN n s).1 = ((cleanupN n s).1, []) := by
  obtain ⟨m, rfl⟩ : ∃ m, n = m + 1 := ⟨n - 1, by omega⟩
  have hc : cleanup s =
      ({ s with stop_callback := none, audio_converter := none },
       [Effect.stopCbInvoked cb]) := by
    simp [cleanup, hcb]
  rcases cleanupN_of_stop_none m
      { s with stop_callback := none, audio_converter := none } rfl
    with ⟨h1, h2⟩
  have htrace : (cleanupN (m + 1) s).2 = [Effect.stopCbInvoked cb] := by
    simp [cleanupN, hc, h2]
  refine ⟨?_, htrace, ?_⟩
  · rw [htrace]; simp [countStops, isStopInvocation]
  · exact stop_playback_none _ (cleanupN_succ_converter m s)

theorem C5_cleanup_idempotent_witness :
    countStops (cleanupN 2 ⟨none, none, false, some 7, some 6, some 5⟩).2
      = 1 ∧
    (cleanupN 2 ⟨none, none, false, some 7, some 6, some 5⟩).2
      = [Effect.stopCbInvoked 7] ∧
    stop_playback (cleanupN 2 ⟨none, none, false, some 7, some 6, some 5⟩).1
      = ((cleanupN 2 ⟨none, none, false, some 7, some 6, some 5⟩).1, []) :=
  C5_cleanup_idempotent ⟨none, none, false, some 7, some 6, some 5⟩ 7 2
    rfl (by decide)

/-- C6: after `play_track` for track A followed immediately by `play_track`
for track B (both loads succeeding), the second call's effect trace is exactly
the invocation of A's stop-notify callback followed by `session.load`,
`session.play`, and the installation of B's playback context; in particular
A's stop callback fires before B's context becomes active, and the resulting
state carries B's converter and callbacks (client.py lines 171-187). -/
theorem C6_play_tears_down_before_install
    (s s1 s2 : ClientState) (t1 t2 : List Effect)
    (A B acbA scbA acbB scbB : Nat)
    (h1 : play_track s A acbA scbA true = some (s1, t1))
    (h2 : play_track s1 B acbB scbB true = some (s2, t2)) :
    t2 = [Effect.stopCbInvoked scbA, Effect.sessionLoad, Effect.sessionPlay,
          Effect.contextInstalled B acbB scbB] ∧
    s2.audio_converter = some B ∧ s2.audio_callback = some acbB ∧
    s2.stop_callback = some scbB := by
  simp only [play_track, if_true, Option.some.injEq, Prod.mk.injEq] at h1
  obtain ⟨hs1, ht1⟩ := h1
  subst hs1
  simp only [play_track, stop_playback, cleanup, if_true,
    Option.some.injEq, Prod.mk.injEq] at h2
  simp at h2
  obtain ⟨hs2, ht2⟩ := h2
  subst hs2
  simp [ht2]

theorem C6_play_tears_down_before_install_witness :
    [Effect.stopCbInvoked 12, Effect.sessionLoad, Effect.sessionPlay,
     Effect.contextInstalled 20 21 22]
      = [Effect.stopCbInvoked 12, Effect.sessionLoad, Effect.sessionPlay,
         Effect.contextInstalled 20 21 22] ∧
    (⟨none, some 1, false, some 22, some 21, some 20⟩ :
        ClientState).audio_converter = some 20 ∧
    (⟨none, some 1, false, some 22, some 21, some 20⟩ :
        ClientState).audio_callback = some 21 ∧
    (⟨none, some 1, false, some 22, some 21, some 20⟩ :
        ClientState).stop_callback = some 22 :=
  C6_play_tears_down_before_install
    ⟨none, some 1, false, none, none, none⟩
    ⟨none, some 1, false, some 12, some 11, some 10⟩
    ⟨none, some 1, false, some 22, some 21, some 20⟩
    [Effect.sessionLoad, Effect.sessionPlay, Effect.contextInstalled 10 11 12]
    [Effect.stopCbInvoked 12, Effect.sessionLoad, Effect.sessionPlay,
     Effect.contextInstalled 20 21 22]
    10 20 11 12 21 22 (by decide) (by decide)

/-- C7: when the frame-sink callback returns false during a `music_delivery`
call on an active playback context, that call performs the idempotent cleanup
(converter and stop callback both cleared) and returns 0 accepted frames
regardless of the frame count the converter reported; and every subsequent
`music_delivery` call, under any outcomes and with no intervening play,
also returns 0 (client.py lines 279-283). -/
theorem C7_sink_refusal_stops_delivery (s : ClientState) (n : Nat)
    (os : List DeliveryOutcome) (h : ¬ s.audio_converter = none) :
    (music_delivery s (DeliveryOutcome.sinkReturns n false)).2.1 = 0 ∧
    (music_delivery s (DeliveryOutcome.sinkReturns n false)).1.audio_converter
      = none ∧
    (music_delivery s (DeliveryOutcome.sinkReturns n false)).1.stop_callback
      = none ∧
    ∀ r ∈ (deliveryRun
        (music_delivery s (DeliveryOutcome.sinkReturns n false)).1 os).2,
      r = 0 := by
  have hm : music_delivery s (DeliveryOutcome.sinkReturns n false) =
      ((stop_playback s).1, 0,
       Effect.convertCalled :: Effect.sinkCalled :: (stop_playback s).2) := by
    simp [music_delivery, h]
  rw [hm]
  exact ⟨rfl, stop_playback_fst_converter s, stop_playback_fst_stop s h,
    (deliveryRun_zeros os _ (stop_playback_fst_converter s)).2⟩

theorem C7_sink_refusal_stops_delivery_witness :
    (music_delivery ⟨none, none, false, some 2, some 3, some 1⟩
        (DeliveryOutcome.sinkReturns 5 false)).2.1 = 0 ∧
    (music_delivery ⟨none, none, false, some 2, some 3, some 1⟩
        (DeliveryOutcome.sinkReturns 5 false)).1.audio_converter = none ∧
    (music_delivery ⟨none, none, false, some 2, some 3, some 1⟩
        (DeliveryOutcome.sinkReturns 5 false)).1.stop_callback = none ∧
    ∀ r ∈ (deliveryRun
        (music_delivery ⟨none, none, false, some 2, some 3, some 1⟩
          (DeliveryOutcome.sinkReturns 5 false)).1
        [DeliveryOutcome.raises, DeliveryOutcome.sinkReturns 4 true]).2,
      r = 0 :=
  C7_sink_refusal_stops_delivery ⟨none, none, false, some 2, some 3, some 1⟩
    5 [DeliveryOutcome.raises, DeliveryOutcome.sinkReturns 4 true]
    (by decide)

/-- C8: when any step inside `music_delivery`'s `try` block raises on an
active playback context, the call produces exactly the stop-and-cleanup of
the sink-refusal path (identical resulting state), returns 0 accepted frames,
and leaves converter and stop callback cleared; the embedding of
`music_delivery` is a total function, reflecting that the `except` handler
never lets the exception propagate into the session engine's call stack
(client.py lines 285-289). -/
theorem C8_exception_contained (s : ClientState) (n : Nat)
    (h : ¬ s.audio_converter = none) :
    music_delivery s DeliveryOutcome.raises =
      ((stop_playback s).1, 0,
       Effect.convertCalled :: (stop_playback s).2) ∧
    (music_delivery s DeliveryOutcome.raises).1 =
      (music_delivery s (DeliveryOutcome.sinkReturns n false)).1 ∧
    (music_delivery s DeliveryOutcome.raises).2.1 = 0 ∧
    (music_delivery s DeliveryOutcome.raises).1.audio_converter = none ∧
    (music_delivery s DeliveryOutcome.raises).1.stop_callback = none := by
  have hr : music_delivery s DeliveryOutcome.raises =
      ((stop_playback s).1, 0,
       Effect.convertCalled :: (stop_playback s).2) := by
    simp [music_delivery, h]
  have hm : music_delivery s (DeliveryOutcome.sinkReturns n false) =
      ((stop_playback s).1, 0,
       Effect.convertCalled :: Effect.sinkCalled :: (stop_playback s).2) := by
    simp [music_delivery, h]
  rw [hr, hm]
  exact ⟨rfl, rfl, rfl, stop_playback_fst_converter s,
    stop_playback_fst_stop s h⟩

theorem C8_exception_contained_witness :
    music_delivery ⟨none, none, false, some 2, some 3, some 1⟩
        DeliveryOutcome.raises =
      ((stop_playback ⟨none, none, false, some 2, some 3, some 1⟩).1, 0,
       Effect.convertCalled ::
         (stop_playback ⟨none, none, false, some 2, some 3, some 1⟩).2) ∧
    (music_delivery ⟨none, none, false, some 2, some 3, some 1⟩
        DeliveryOutcome.raises).1 =
      (music_delivery ⟨none, none, false, some 2, some 3, some 1⟩
        (DeliveryOutcome.sinkReturns 9 false)).1 ∧
    (music_delivery ⟨none, none, false, some 2, some 3, some 1⟩
        DeliveryOutcome.raises).2.1 = 0 ∧
    (music_delivery ⟨none, none, false, some 2, some 3, some 1⟩
        DeliveryOutcome.raises).1.audio_converter = none ∧
    (music_delivery ⟨none, none, false, some 2, some 3, some 1⟩
        DeliveryOutcome.raises).1.stop_callback = none :=
  C8_exception_contained ⟨none, none, false, some 2, some 3, some 1⟩ 9
    (by decide)

theorem waitGo_reaches (tau interval timeout : Nat)
    (htau : tau ≤ timeout) :
    ∀ fuel e c, timeout < e + fuel * interval →
      tau ≤ (waitGo (fun x => decide (tau ≤ x)) interval timeout
        fuel e c).1 := by
  intro fuel
  induction fuel with
  | zero =>
      intro e c hbound
      simp only [waitGo]
      omega
  | succ fuel ih =>
      intro e c hbound
      by_cases hl : tau ≤ e
      · simp [waitGo, hl]
      · have hl' : decide (tau ≤ e) = false := by simp [hl]
        by_cases he : e < timeout
        · rw [waitGo]
          simp only [hl', Bool.false_eq_true, if_false, he, if_true]
          apply ih
          have hmul : (fuel + 1) * interval = interval + fuel * interval := by
            ring
          omega
        · rw [waitGo]
          simp only [hl', Bool.false_eq_true, if_false, he]
          omega

/-- C4 counterexample: the claim says `wait_until_loaded(O, t)` raises the
not-loaded error whenever the predicate does not become true within `t`
seconds.  With poll interval 2 and timeout 1, a predicate that is false at
times 0 and 1 (so never true within the 1-second timeout) still yields a
loaded result: the loop's final iteration sleeps past the deadline and
re-checks the predicate at elapsed time 2, where it has become true
(client.py line 198 checks `is_loaded()` before the deadline test). -/
theorem C4_counterexample :
    (fun e => decide (2 ≤ e)) 0 = false ∧
    (fun e => decide (2 ≤ e)) 1 = false ∧
    (wait_until_loaded (fun e => decide (2 ≤ e)) 2 1).1
      = WaitResult.loaded := by
  decide

/-- C4 amended: for a predicate that becomes true at time `tau` and stays
true, `wait_until_loaded` with positive poll interval returns the object
whenever the predicate becomes true within the timeout; it raises the
not-loaded error exactly when the predicate is still false at the elapsed
time at which the polling loop exits (the first poll instant at which the
predicate holds or the timeout has been reached) — so it can also return the
object when the predicate becomes true after the timeout but no later than
that final poll; and it always performs at least one predicate check, even
with timeout 0. -/
theorem C4_wait_until_loaded_amended (tau interval timeout : Nat)
    (hi : 0 < interval) :
    (tau ≤ timeout →
      (wait_until_loaded (fun e => decide (tau ≤ e)) interval timeout).1
        = WaitResult.loaded) ∧
    ((wait_until_loaded (fun e => decide (tau ≤ e)) interval timeout).1
        = WaitResult.notLoaded ↔
      waitElapsed (fun e => decide (tau ≤ e)) interval timeout < tau) ∧
    1 ≤ (wait_until_loaded (fun e => decide (tau ≤ e)) interval timeout).2 := by
  refine ⟨?_, ?_, ?_⟩
  · intro htau
    have hb : timeout < 0 + (timeout + 1) * interval := by
      have := Nat.le_mul_of_pos_right (timeout + 1) hi
      omega
    have hE : tau ≤ waitElapsed (fun e => decide (tau ≤ e)) interval timeout :=
      waitGo_reaches tau interval timeout htau (timeout + 1) 0 0 hb
    simp [wait_until_loaded, hE]
  · by_cases hE : tau ≤ waitElapsed (fun e => decide (tau ≤ e)) interval
        timeout
    · have hE2 : decide (tau ≤ waitElapsed (fun e => decide (tau ≤ e))
          interval timeout) = true := by simp [hE]
      simp only [wait_until_loaded, hE2, if_true]
      constructor
      · intro hc; exact absurd hc (by simp)
      · omega
    · have hE' : decide (tau ≤ waitElapsed (fun e => decide (tau ≤ e))
          interval timeout) = false := by simp [hE]
      simp only [wait_until_loaded, hE', Bool.false_eq_true, if_false]
      constructor
      · intro _; omega
      · intro _; trivial
  · simp only [wait_until_loaded]
    split <;> omega

theorem C4_wait_until_loaded_amended_witness :
    ((1 : Nat) ≤ 2 →
      (wait_until_loaded (fun e => decide (1 ≤ e)) 1 2).1
        = WaitResult.loaded) ∧
    ((wait_until_loaded (fun e => decide (1 ≤ e)) 1 2).1
        = WaitResult.notLoaded ↔
      waitElapsed (fun e => decide (1 ≤ e)) 1 2 < 1) ∧
    1 ≤ (wait_until_loaded (fun e => decide (1 ≤ e)) 1 2).2 :=
  C4_wait_until_loaded_amended 1 1 2 (by decide)

theorem step_preserves_inv {s t : SysState} {e : Ev}
    (h : step s e = some t)
    (hs : s.client.audio_converter = none → s.client.stop_callback = none) :
    t.client.audio_converter = none → t.client.stop_callback = none := by
  cases e with
  | connect =>
      simp only [step, Option.some.injEq] at h
      subst h
      simpa [connect, schedule_periodic_check, schedule_timer] using hs
  | loggedIn sess err =>
      simp only [step, Option.some.injEq] at h
      subst h
      simpa [logged_in] using hs
  | loggedOut =>
      simp only [step, Option.some.injEq] at h
      subst h
      rcases ht : s.client.timer with _ | tk <;>
        simpa [logged_out, cancel_timer, ht] using hs
  | wake =>
      simp only [step, Option.some.injEq] at h
      subst h
      simpa [wake, schedule_periodic_check, schedule_timer] using hs
  | fire tk =>
      simp only [step] at h
      by_cases hm : tk ∈ s.live
      · simp only [hm, if_true, Option.some.injEq] at h
        subst h
        simpa [fire_timer, periodic_check, schedule_periodic_check,
          schedule_timer] using hs
      · simp [hm] at h
  | endOfTrack =>
      simp only [step, Option.some.injEq] at h
      subst h
      intro _
      simp [end_of_track, cleanup_fst_stop]
  | playTrack track acb scb loadOk =>
      simp only [step] at h
      by_cases hsess : s.client.session = none
      · simp [hsess] at h
      · cases loadOk with
        | false =>
            simp only [hsess, if_false, play_track, Bool.false_eq_true,
              Option.some.injEq] at h
            subst h
            exact hs
        | true =>
            simp only [hsess, if_false, play_track, if_true,
              Option.some.injEq] at h
            subst h
            intro hconv
            simp at hconv
  | stopPlayback =>
      simp only [step, Option.some.injEq] at h
      subst h
      by_cases hc : s.client.audio_converter = none
      · simpa [stop_playback, hc] using hs
      · intro _
        simp [stop_playback, hc, cleanup_fst_stop]
  | delivery o =>
      simp only [step, Option.some.injEq] at h
      subst h
      by_cases hc : s.client.audio_converter = none
      · simpa [music_delivery, hc] using hs
      · cases o with
        | raises =>
            intro _
            simp [music_delivery, hc, stop_playback, cleanup_fst_stop]
        | sinkReturns n accept =>
            cases accept with
            | true => simpa [music_delivery, hc] using hs
            | false =>
                intro _
                simp [music_delivery, hc, stop_playback, cleanup_fst_stop]

/-- C10: in every reachable state of the bridge, a registered stop-notify
callback implies an installed audio converter; consequently whenever
`stop_playback`'s early return fires (converter absent), no stop-notify
callback is registered, so the early return never skips a still-registered
callback (client.py lines 141-147, 171-187, 226-231, 274-289). -/
theorem C10_stop_callback_needs_converter (s : SysState) (h : Reachable s) :
    (s.client.stop_callback ≠ none → s.client.audio_converter ≠ none) ∧
    (s.client.audio_converter = none →
      s.client.stop_callback = none ∧
      stop_playback s.client = (s.client, [])) := by
  have key : s.client.audio_converter = none →
      s.client.stop_callback = none := by
    induction h with
    | start => intro _; rfl
    | next r hstep ih => exact step_preserves_inv hstep ih
  exact ⟨fun hstop hconv => hstop (key hconv),
    fun hconv => ⟨key hconv, stop_playback_none _ hconv⟩⟩

theorem C10_stop_callback_needs_converter_witness :
    ((⟨⟨some 0, some 1, false, some 7, some 6, some 5⟩, [0], 1, 0⟩ :
        SysState).client.stop_callback ≠ none →
      (⟨⟨some 0, some 1, false, some 7, some 6, some 5⟩, [0], 1, 0⟩ :
        SysState).client.audio_converter ≠ none) ∧
    ((⟨⟨some 0, some 1, false, some 7, some 6, some 5⟩, [0], 1, 0⟩ :
        SysState).client.audio_converter = none →
      (⟨⟨some 0, some 1, false, some 7, some 6, some 5⟩, [0], 1, 0⟩ :
        SysState).client.stop_callback = none ∧
      stop_playback (⟨⟨some 0, some 1, false, some 7, some 6, some 5⟩,
          [0], 1, 0⟩ : SysState).client =
        ((⟨⟨some 0, some 1, false, some 7, some 6, some 5⟩, [0], 1, 0⟩ :
          SysState).client, [])) :=
  C10_stop_callback_needs_converter _
    (Reachable.next
      (Reachable.next
        (Reachable.next Reachable.start
          (show step initSys Ev.connect =
              some ⟨⟨some 0, none, true, none, none, none⟩, [0], 1, 0⟩ by
            decide))
        (show step ⟨⟨some 0, none, true, none, none, none⟩, [0], 1, 0⟩
              (Ev.loggedIn (some 1) none) =
            some ⟨⟨some 0, some 1, false, none, none, none⟩, [0], 1, 0⟩ by
          decide))
      (show step ⟨⟨some 0, some 1, false, none, none, none⟩, [0], 1, 0⟩
            (Ev.playTrack 5 6 7 true) =
          some ⟨⟨some 0, some 1, false, some 7, some 6, some 5⟩, [0], 1, 0⟩ by
        decide))

end Spotify2
